import Mathlib

/-!
Shallow embedding of the collateralized lending contract in `src/lending.rs`
(CosmWasm, Rust), together with proofs of its stated properties.

Modelling conventions:
  - `Uint128` values are `Nat`; fixed-width overflow is made explicit with
    `2 ^ 128` bounds exactly where the Rust operators check or panic.
  - `Decimal` is the cosmwasm fixed-point decimal: a `Nat` of atomics with
    18 fractional digits (`value = atomics / 10 ^ 18`).  `Uint128 * Decimal`
    in cosmwasm is `multiply_ratio(atomics, 10^18)`: the product is taken at
    full width, divided with floor, and the contract panics if the final
    result does not fit in 128 bits.  `Uint128 + Uint128` panics on overflow.
  - Storage (`Item`/`Map` of cw-storage-plus) is a record of the config
    option and two key-value maps from account identity (`String`) to
    `LoanInfo` / `Collateral`.
  - Each entry point is a function `ContractState → ... → ContractState ×
    Except StdError Response`, threading the storage exactly in the order the
    Rust code reads and writes it; an early `return Err(..)` yields the
    storage as it stood at that point.
  - `StdError.panic` models the wasm abort raised by unchecked `Uint128`
    arithmetic (a contract panic, which the host turns into a failed call);
    it is distinct from `StdError.overflow`, the typed `StdError::Overflow`
    variant of cosmwasm-std, which this contract never constructs.
-/

/-- Fixed-point decimal with 18 fractional digits (cosmwasm `Decimal`). -/
structure Decimal where
  atomics : Nat
deriving DecidableEq, Repr

/-- `Decimal::percent(p)` is `p / 100`, i.e. `p * 10^16` atomics. -/
def Decimal.percent (p : Nat) : Decimal :=
  { atomics := p * 10 ^ 16 }

/-- Floor multiplication `Uint128 * Decimal` (`multiply_ratio(atomics, 10^18)`);
`none` models the panic when the floored result does not fit in 128 bits. -/
def mulDecimalFloor (a : Nat) (d : Decimal) : Option Nat :=
  let r := a * d.atomics / 10 ^ 18
  if r < 2 ^ 128 then some r else none

/-- `Uint128 + Uint128`; `none` models the panic on overflow past 128 bits. -/
def checkedAddU128 (a b : Nat) : Option Nat :=
  if a + b < 2 ^ 128 then some (a + b) else none

/-- String rendering of the fractional part of a `Decimal`: pad to 18 digits. -/
def padFrac18 (n : Nat) : List Char :=
  let ds := (toString n).toList
  List.replicate (18 - ds.length) (Char.ofNat 48) ++ ds

/-- Drop the trailing zero digits of a fractional rendering. -/
def dropTrailingZeros (cs : List Char) : List Char :=
  (cs.reverse.dropWhile (fun c => c = Char.ofNat 48)).reverse

/-- Display of a cosmwasm `Decimal` (`<whole>` or `<whole>.<trimmed frac>`). -/
def Decimal.displayStr (d : Decimal) : String :=
  let whole := d.atomics / 10 ^ 18
  let frac := d.atomics % 10 ^ 18
  if frac = 0 then toString whole
  else toString whole ++ "." ++ String.mk (dropTrailingZeros (padFrac18 frac))

/-- `Config` of `lending.rs`: owner address and base annual interest rate. -/
structure Config where
  owner : String
  base_interest_rate : Decimal
deriving DecidableEq, Repr

/-- `LoanInfo` of `lending.rs`. -/
structure LoanInfo where
  amount_borrowed : Nat
  interest_rate : Decimal
  loan_start_time : Nat
deriving DecidableEq, Repr

/-- `Collateral` of `lending.rs`. -/
structure Collateral where
  token_address : String
  amount : Nat
deriving DecidableEq, Repr

/-- One `Coin` (`cosmwasm_std::coin`). -/
structure Coin where
  amount : Nat
  denom : String
deriving DecidableEq, Repr

/-- `BankMsg::Send`: the funds-transfer instruction emitted by `borrow`. -/
structure BankMsgSend where
  to_address : String
  amount : List Coin
deriving DecidableEq, Repr

/-- CosmWasm `Response`: dispatched messages plus string attributes. -/
structure Response where
  messages : List BankMsgSend
  attributes : List (String × String)
deriving DecidableEq, Repr

/-- Error outcomes of a call.  `notFound` is the `StdError::NotFound` raised
by a `Map`/`Item` load miss; `genericErr` is `StdError::generic_err`;
`overflow` is the typed `StdError::Overflow` variant (never constructed by
this contract); `panic` is the wasm abort of unchecked `Uint128` arithmetic. -/
inductive StdError where
  | notFound
  | genericErr (msg : String)
  | overflow
  | panic
deriving DecidableEq, Repr

/-- Storage of the contract: the `CONFIG` item and the `LOANS` and
`COLLATERALS` maps, keyed by account identity. -/
structure ContractState where
  config : Option Config
  loans : String → Option LoanInfo
  collaterals : String → Option Collateral

/-- `Map::save` (upsert) on a keyed map. -/
def mapSave {α : Type} (m : String → Option α) (k : String) (v : α) :
    String → Option α :=
  fun x => if x = k then some v else m x

/-- `Map::remove` on a keyed map. -/
def mapRemove {α : Type} (m : String → Option α) (k : String) :
    String → Option α :=
  fun x => if x = k then none else m x

/-- `MessageInfo`: the authenticated sender. -/
structure MessageInfo where
  sender : String
deriving DecidableEq, Repr

/-- `BlockInfo`: block time in seconds. -/
structure BlockInfo where
  time : Nat
deriving DecidableEq, Repr

/-- `Env`: the block context. -/
structure Env where
  block : BlockInfo
deriving DecidableEq, Repr

/-- `InstantiateMsg` of `lending.rs`. -/
structure InstantiateMsg where
  owner : String
  base_interest_rate : Decimal
deriving DecidableEq, Repr

/-- `ExecuteMsg` of `lending.rs`: exactly the four executable actions. -/
inductive ExecuteMsg where
  | DepositCollateral (token_address : String) (amount : Nat)
  | WithdrawCollateral (token_address : String) (amount : Nat)
  | Borrow (amount : Nat)
  | RepayLoan (amount : Nat)
deriving DecidableEq, Repr

/-- Whether a call result is a success. -/
def isOk : Except StdError Response → Bool
  | Except.ok _ => true
  | Except.error _ => false

/-- `instantiate` of `lending.rs`: saves the config. -/
def instantiate (s : ContractState) (msg : InstantiateMsg) :
    ContractState × Except StdError Response :=
  let config : Config :=
    { owner := msg.owner, base_interest_rate := msg.base_interest_rate }
  ({ s with config := some config },
    Except.ok { messages := [], attributes := [("method", "instantiate")] })

/-- `deposit_collateral` of `lending.rs`: rejects a zero amount, otherwise
saves (replaces) the sender's collateral record. -/
def deposit_collateral (s : ContractState) (info : MessageInfo)
    (token_address : String) (amount : Nat) :
    ContractState × Except StdError Response :=
  if amount = 0 then
    (s, Except.error (StdError.genericErr "Amount cannot be zero"))
  else
    let collateral : Collateral := { token_address := token_address, amount := amount }
    ({ s with collaterals := mapSave s.collaterals info.sender collateral },
      Except.ok
        { messages := [],
          attributes := [("action", "deposit_collateral"), ("amount", toString amount)] })

/-- `withdraw_collateral` of `lending.rs`: loads the sender's collateral
(`NotFound` on a miss), rejects a token mismatch or insufficient stored
amount, then removes the record or decrements it. -/
def withdraw_collateral (s : ContractState) (info : MessageInfo)
    (token_address : String) (amount : Nat) :
    ContractState × Except StdError Response :=
  match s.collaterals info.sender with
  | none => (s, Except.error StdError.notFound)
  | some collateral =>
    if collateral.token_address ≠ token_address ∨ collateral.amount < amount then
      (s, Except.error (StdError.genericErr
        "Insufficient collateral or mismatched token address"))
    else if collateral.amount = amount then
      ({ s with collaterals := mapRemove s.collaterals info.sender },
        Except.ok
          { messages := [],
            attributes := [("action", "withdraw_collateral"), ("amount", toString amount),
              ("token_address", token_address)] })
    else
      let updated_collateral : Collateral :=
        { token_address := collateral.token_address,
          amount := collateral.amount - amount }
      ({ s with collaterals := mapSave s.collaterals info.sender updated_collateral },
        Except.ok
          { messages := [],
            attributes := [("action", "withdraw_collateral"), ("amount", toString amount),
              ("token_address", token_address)] })

/-- `borrow` of `lending.rs`: unconditionally saves a loan record at the
hardcoded 5% rate and emits a `BankMsg::Send` of `amount` usdc to the sender. -/
def borrow (s : ContractState) (env : Env) (info : MessageInfo) (amount : Nat) :
    ContractState × Except StdError Response :=
  let loan_info : LoanInfo :=
    { amount_borrowed := amount,
      interest_rate := Decimal.percent 5,
      loan_start_time := env.block.time }
  let payout : Coin := { amount := amount, denom := "usdc" }
  let bank_msg : BankMsgSend := { to_address := info.sender, amount := [payout] }
  ({ s with loans := mapSave s.loans info.sender loan_info },
    Except.ok
      { messages := [bank_msg],
        attributes := [("action", "borrow"), ("amount", toString amount)] })

/-- `repay_loan` of `lending.rs`: loads the sender's loan (`NotFound` on a
miss), computes `interest = amount_borrowed * interest_rate` and
`total_due = amount_borrowed + interest` with panicking arithmetic, rejects
`amount < total_due`, and removes the loan record. -/
def repay_loan (s : ContractState) (info : MessageInfo) (amount : Nat) :
    ContractState × Except StdError Response :=
  match s.loans info.sender with
  | none => (s, Except.error StdError.notFound)
  | some loan =>
    match mulDecimalFloor loan.amount_borrowed loan.interest_rate with
    | none => (s, Except.error StdError.panic)
    | some interest =>
      match checkedAddU128 loan.amount_borrowed interest with
      | none => (s, Except.error StdError.panic)
      | some total_due =>
        if amount < total_due then
          (s, Except.error (StdError.genericErr
            "Repayment amount is not enough to cover the loan and interest"))
        else
          ({ s with loans := mapRemove s.loans info.sender },
            Except.ok
              { messages := [],
                attributes := [("action", "repay_loan"), ("amount", toString amount),
                  ("interest_paid", toString interest)] })

/-- `update_interest_rate` of `lending.rs`: loads the config, rejects a
non-owner sender, then updates `base_interest_rate` in place.  It is defined
in the source but never dispatched by `execute`. -/
def update_interest_rate (s : ContractState) (info : MessageInfo)
    (new_rate : Decimal) : ContractState × Except StdError Response :=
  match s.config with
  | none => (s, Except.error StdError.notFound)
  | some config =>
    if info.sender ≠ config.owner then
      (s, Except.error (StdError.genericErr "You have no permissions."))
    else
      ({ s with config := some { config with base_interest_rate := new_rate } },
        Except.ok
          { messages := [],
            attributes := [("action", "update_interest_rate"),
              ("new_rate", new_rate.displayStr)] })

/-- `execute` of `lending.rs`: dispatch over the four `ExecuteMsg` variants. -/
def execute (s : ContractState) (env : Env) (info : MessageInfo)
    (msg : ExecuteMsg) : ContractState × Except StdError Response :=
  match msg with
  | ExecuteMsg.DepositCollateral token_address amount =>
      deposit_collateral s info token_address amount
  | ExecuteMsg.WithdrawCollateral token_address amount =>
      withdraw_collateral s info token_address amount
  | ExecuteMsg.Borrow amount => borrow s env info amount
  | ExecuteMsg.RepayLoan amount => repay_loan s info amount

/-- Storage before instantiation: no config, no loans, no collateral. -/
def emptyState : ContractState :=
  { config := none, loans := fun _ => none, collaterals := fun _ => none }

/-- A freshly instantiated state with owner `"owner"` and a 5% base rate. -/
def st0 : ContractState :=
  (instantiate emptyState
    { owner := "owner", base_interest_rate := Decimal.percent 5 }).fst

/-- Env at a given block time. -/
def envAt (t : Nat) : Env := { block := { time := t } }

/-- MessageInfo for a given sender. -/
def infoOf (a : String) : MessageInfo := { sender := a }

/-- Every stored collateral record has a strictly positive amount. -/
def collInv (s : ContractState) : Prop :=
  ∀ a c, s.collaterals a = some c → 0 < c.amount

/-- The largest `Uint128` value. -/
def maxU : Nat := 2 ^ 128 - 1

deriving instance DecidableEq for Except

/-- The state `st0` after `"alice"` borrows `1000` at block time 0. -/
def c2Borrowed : ContractState :=
  (execute st0 (envAt 0) (infoOf "alice") (ExecuteMsg.Borrow 1000)).fst

/-- A state holding a maximal loan for `"alice"`, reached from `st0` by a
single `Borrow` of the largest `Uint128` value. -/
def stMaxLoan : ContractState :=
  (execute st0 (envAt 0) (infoOf "alice") (ExecuteMsg.Borrow maxU)).fst

/-! ## Helper lemmas: which storage components each handler can touch -/

theorem mapSave_same {α : Type} (m : String → Option α) (k : String) (v : α) :
    mapSave m k v k = some v := by
  simp [mapSave]

theorem mapSave_other {α : Type} (m : String → Option α) (k x : String) (v : α)
    (h : x ≠ k) : mapSave m k v x = m x := by
  simp [mapSave, h]

theorem mapRemove_same {α : Type} (m : String → Option α) (k : String) :
    mapRemove m k k = none := by
  simp [mapRemove]

theorem mapRemove_other {α : Type} (m : String → Option α) (k x : String)
    (h : x ≠ k) : mapRemove m k x = m x := by
  simp [mapRemove, h]

theorem deposit_config_eq (s : ContractState) (info : MessageInfo)
    (t : String) (amt : Nat) :
    (deposit_collateral s info t amt).fst.config = s.config := by
  unfold deposit_collateral
  split <;> rfl

theorem withdraw_config_eq (s : ContractState) (info : MessageInfo)
    (t : String) (amt : Nat) :
    (withdraw_collateral s info t amt).fst.config = s.config := by
  unfold withdraw_collateral
  split
  · rfl
  · split
    · rfl
    · split <;> rfl

theorem repay_config_eq (s : ContractState) (info : MessageInfo) (amt : Nat) :
    (repay_loan s info amt).fst.config = s.config := by
  unfold repay_loan
  split
  · rfl
  · split
    · rfl
    · split
      · rfl
      · split <;> rfl

theorem repay_collaterals_eq (s : ContractState) (info : MessageInfo) (amt : Nat) :
    (repay_loan s info amt).fst.collaterals = s.collaterals := by
  unfold repay_loan
  split
  · rfl
  · split
    · rfl
    · split
      · rfl
      · split <;> rfl

theorem deposit_loans_eq (s : ContractState) (info : MessageInfo)
    (t : String) (amt : Nat) :
    (deposit_collateral s info t amt).fst.loans = s.loans := by
  unfold deposit_collateral
  split <;> rfl

theorem withdraw_loans_eq (s : ContractState) (info : MessageInfo)
    (t : String) (amt : Nat) :
    (withdraw_collateral s info t amt).fst.loans = s.loans := by
  unfold withdraw_collateral
  split
  · rfl
  · split
    · rfl
    · split <;> rfl

theorem repay_loan_none (s : ContractState) (info : MessageInfo) (amount : Nat)
    (h : s.loans info.sender = none) :
    repay_loan s info amount = (s, Except.error StdError.notFound) := by
  unfold repay_loan
  rw [h]

theorem repay_loan_mul_overflow (s : ContractState) (info : MessageInfo)
    (amount : Nat) (loan : LoanInfo)
    (h : s.loans info.sender = some loan)
    (hi : mulDecimalFloor loan.amount_borrowed loan.interest_rate = none) :
    repay_loan s info amount = (s, Except.error StdError.panic) := by
  unfold repay_loan
  split
  · rename_i hn
    rw [h] at hn
    cases hn
  · rename_i loan2 hsome
    rw [h] at hsome
    injection hsome with he
    subst he
    split
    · rfl
    · rename_i i2 hm
      rw [hi] at hm
      cases hm

theorem repay_loan_add_overflow (s : ContractState) (info : MessageInfo)
    (amount : Nat) (loan : LoanInfo) (interest : Nat)
    (h : s.loans info.sender = some loan)
    (hi : mulDecimalFloor loan.amount_borrowed loan.interest_rate = some interest)
    (ht : checkedAddU128 loan.amount_borrowed interest = none) :
    repay_loan s info amount = (s, Except.error StdError.panic) := by
  unfold repay_loan
  split
  · rename_i hn
    rw [h] at hn
    cases hn
  · rename_i loan2 hsome
    rw [h] at hsome
    injection hsome with he
    subst he
    split
    · rfl
    · rename_i i2 hm
      rw [hi] at hm
      injection hm with he2
      subst he2
      split
      · rfl
      · rename_i t2 ha
        rw [ht] at ha
        cases ha

theorem repay_loan_some (s : ContractState) (info : MessageInfo) (amount : Nat)
    (loan : LoanInfo) (interest total_due : Nat)
    (h : s.loans info.sender = some loan)
    (hi : mulDecimalFloor loan.amount_borrowed loan.interest_rate = some interest)
    (ht : checkedAddU128 loan.amount_borrowed interest = some total_due) :
    repay_loan s info amount =
      if amount < total_due then
        (s, Except.error (StdError.genericErr
          "Repayment amount is not enough to cover the loan and interest"))
      else
        ({ s with loans := mapRemove s.loans info.sender },
          Except.ok
            { messages := [],
              attributes := [("action", "repay_loan"), ("amount", toString amount),
                ("interest_paid", toString interest)] }) := by
  unfold repay_loan
  split
  · rename_i hn
    rw [h] at hn
    cases hn
  · rename_i loan2 hsome
    rw [h] at hsome
    injection hsome with he
    subst he
    split
    · rename_i hm
      rw [hi] at hm
      cases hm
    · rename_i i2 hm
      rw [hi] at hm
      injection hm with he2
      subst he2
      split
      · rename_i ha
        rw [ht] at ha
        cases ha
      · rename_i t2 ha
        rw [ht] at ha
        injection ha with he3
        subst he3
        rfl

theorem exec_config_eq (s : ContractState) (env : Env) (info : MessageInfo)
    (msg : ExecuteMsg) : (execute s env info msg).fst.config = s.config := by
  cases msg with
  | DepositCollateral t amt => exact deposit_config_eq s info t amt
  | WithdrawCollateral t amt => exact withdraw_config_eq s info t amt
  | Borrow amt => rfl
  | RepayLoan amt => exact repay_config_eq s info amt

theorem deposit_spec (s : ContractState) (info : MessageInfo)
    (t : String) (amt : Nat) :
    deposit_collateral s info t amt =
      if amt = 0 then
        (s, Except.error (StdError.genericErr "Amount cannot be zero"))
      else
        ({ s with collaterals :=
            mapSave s.collaterals info.sender ⟨t, amt⟩ },
          Except.ok
            { messages := [],
              attributes := [("action", "deposit_collateral"),
                ("amount", toString amt)] }) := rfl

theorem withdraw_none (s : ContractState) (info : MessageInfo)
    (t : String) (amt : Nat) (h : s.collaterals info.sender = none) :
    withdraw_collateral s info t amt = (s, Except.error StdError.notFound) := by
  unfold withdraw_collateral
  rw [h]

theorem withdraw_spec_some (s : ContractState) (info : MessageInfo)
    (t : String) (amt : Nat) (col : Collateral)
    (h : s.collaterals info.sender = some col) :
    withdraw_collateral s info t amt =
      if col.token_address ≠ t ∨ col.amount < amt then
        (s, Except.error (StdError.genericErr
          "Insufficient collateral or mismatched token address"))
      else if col.amount = amt then
        ({ s with collaterals := mapRemove s.collaterals info.sender },
          Except.ok
            { messages := [],
              attributes := [("action", "withdraw_collateral"),
                ("amount", toString amt), ("token_address", t)] })
      else
        ({ s with collaterals :=
            mapSave s.collaterals info.sender ⟨col.token_address, col.amount - amt⟩ },
          Except.ok
            { messages := [],
              attributes := [("action", "withdraw_collateral"),
                ("amount", toString amt), ("token_address", t)] }) := by
  unfold withdraw_collateral
  split
  · rename_i hn
    rw [h] at hn
    cases hn
  · rename_i col2 hsome
    rw [h] at hsome
    injection hsome with he
    subst he
    rfl

/-! ## Claim theorems -/

/-- C4: `Borrow(amount)` never fails a validation: for every prior state
(whatever the config, collateral and existing loans) it creates or overwrites
the caller's loan record with `amount_borrowed = amount`, an `interest_rate`
equal to the constant 5% (independent of the configured `base_interest_rate`,
since the state `s` is arbitrary), and `loan_start_time` equal to the current
block time, and it emits a `BankMsg::Send` of `amount` usdc to the caller.
Other accounts' loans, the collateral map and the config are untouched. -/
theorem borrow_unconditional_effects (s : ContractState) (env : Env)
    (info : MessageInfo) (amount : Nat) :
    (execute s env info (ExecuteMsg.Borrow amount)).snd =
      Except.ok
        { messages := [{ to_address := info.sender,
                         amount := [{ amount := amount, denom := "usdc" }] }],
          attributes := [("action", "borrow"), ("amount", toString amount)] } ∧
    (execute s env info (ExecuteMsg.Borrow amount)).fst.loans info.sender =
      some { amount_borrowed := amount, interest_rate := Decimal.percent 5,
             loan_start_time := env.block.time } ∧
    (∀ a, a ≠ info.sender →
      (execute s env info (ExecuteMsg.Borrow amount)).fst.loans a = s.loans a) ∧
    (execute s env info (ExecuteMsg.Borrow amount)).fst.collaterals = s.collaterals ∧
    (execute s env info (ExecuteMsg.Borrow amount)).fst.config = s.config := by
  refine ⟨rfl, ?_, ?_, rfl, rfl⟩
  · exact mapSave_same s.loans info.sender _
  · intro a ha
    exact mapSave_other s.loans info.sender a _ ha

/-- C10: `Borrow 0` succeeds for every caller and prior state (there is no
zero-amount rejection in `borrow`, unlike `deposit_collateral`), storing a
loan record with `amount_borrowed = 0`; a subsequent `RepayLoan 0` by the
same caller also succeeds, since the total due is 0, and deletes it. -/
theorem zero_borrow_then_zero_repay (s : ContractState) (env1 env2 : Env)
    (info : MessageInfo) :
    isOk (execute s env1 info (ExecuteMsg.Borrow 0)).snd = true ∧
    (execute s env1 info (ExecuteMsg.Borrow 0)).fst.loans info.sender =
      some { amount_borrowed := 0, interest_rate := Decimal.percent 5,
             loan_start_time := env1.block.time } ∧
    isOk (execute (execute s env1 info (ExecuteMsg.Borrow 0)).fst env2 info
      (ExecuteMsg.RepayLoan 0)).snd = true ∧
    (execute (execute s env1 info (ExecuteMsg.Borrow 0)).fst env2 info
      (ExecuteMsg.RepayLoan 0)).fst.loans info.sender = none := by
  have h1 : (borrow s env1 info 0).fst.loans info.sender =
      some { amount_borrowed := 0, interest_rate := Decimal.percent 5,
             loan_start_time := env1.block.time } :=
    mapSave_same s.loans info.sender _
  have h2 := repay_loan_some (borrow s env1 info 0).fst info 0
    { amount_borrowed := 0, interest_rate := Decimal.percent 5,
      loan_start_time := env1.block.time } 0 0 h1
    (by norm_num [mulDecimalFloor, Decimal.percent])
    (by norm_num [checkedAddU128])
  rw [if_neg (by norm_num)] at h2
  refine ⟨rfl, h1, ?_, ?_⟩
  · show isOk (repay_loan (borrow s env1 info 0).fst info 0).snd = true
    rw [h2]
    rfl
  · show (repay_loan (borrow s env1 info 0).fst info 0).fst.loans info.sender = none
    rw [h2]
    exact mapRemove_same _ _

/-- C2: from a fresh state, after `"alice"` borrows 1000 (rate snapshotted at
5%), `RepayLoan 1049` fails with the insufficient-payment error (total due is
1050) and leaves the loan record in place, while `RepayLoan 1050` succeeds,
deletes the loan record, and reports `interest_paid = "50"`. -/
theorem repay_example_1000_at_5pct :
    (execute c2Borrowed (envAt 10) (infoOf "alice") (ExecuteMsg.RepayLoan 1049)).snd =
      Except.error (StdError.genericErr
        "Repayment amount is not enough to cover the loan and interest") ∧
    (execute c2Borrowed (envAt 10) (infoOf "alice") (ExecuteMsg.RepayLoan 1049)).fst.loans
        "alice" =
      some { amount_borrowed := 1000, interest_rate := Decimal.percent 5,
             loan_start_time := 0 } ∧
    (execute c2Borrowed (envAt 10) (infoOf "alice") (ExecuteMsg.RepayLoan 1050)).snd =
      Except.ok
        { messages := [],
          attributes := [("action", "repay_loan"), ("amount", "1050"),
            ("interest_paid", "50")] } ∧
    (execute c2Borrowed (envAt 10) (infoOf "alice") (ExecuteMsg.RepayLoan 1050)).fst.loans
        "alice" = none := by
  refine ⟨?_, ?_, ?_, ?_⟩ <;> decide

/-- C1 counterexample: after `Borrow 0` from a fresh state, a loan record
exists for `"alice"` whose `amount_borrowed` is not positive, refuting both
the record-exists-iff-unrepaid-amount invariant and the positivity of every
stored `LoanInfo`. -/
theorem loan_record_zero_amount_counterexample :
    ∃ loan : LoanInfo,
      (execute st0 (envAt 0) (infoOf "alice") (ExecuteMsg.Borrow 0)).fst.loans "alice" =
        some loan ∧ ¬ 0 < loan.amount_borrowed :=
  ⟨{ amount_borrowed := 0, interest_rate := Decimal.percent 5, loan_start_time := 0 },
    by decide, by decide⟩

/-- C1 amended: after every action, an account's loan record is created or
overwritten (with the borrowed amount, which may be zero, the constant 5%
rate, and the block time) exactly by a `Borrow` from that account, deleted
exactly by a successful `RepayLoan` from that account, and otherwise left
unchanged; so a record exists iff the account's last loan-affecting action
was a `Borrow`, but its `amount_borrowed` need not be positive. -/
theorem loan_record_step_characterization (s : ContractState) (env : Env)
    (info : MessageInfo) (msg : ExecuteMsg) (a : String) :
    (execute s env info msg).fst.loans a =
      match msg with
      | ExecuteMsg.Borrow amt =>
          if a = info.sender then
            some { amount_borrowed := amt, interest_rate := Decimal.percent 5,
                   loan_start_time := env.block.time }
          else s.loans a
      | ExecuteMsg.RepayLoan _ =>
          if a = info.sender ∧ isOk (execute s env info msg).snd = true then none
          else s.loans a
      | _ => s.loans a := by
  cases msg with
  | DepositCollateral t amt =>
      exact congrFun (deposit_loans_eq s info t amt) a
  | WithdrawCollateral t amt =>
      exact congrFun (withdraw_loans_eq s info t amt) a
  | Borrow amt =>
      show mapSave s.loans info.sender _ a = _
      rfl
  | RepayLoan amt =>
      show (repay_loan s info amt).fst.loans a =
        if a = info.sender ∧ isOk (repay_loan s info amt).snd = true then none
        else s.loans a
      cases hl : s.loans info.sender with
      | none =>
          rw [repay_loan_none s info amt hl]
          simp [isOk]
      | some loan =>
          cases hm : mulDecimalFloor loan.amount_borrowed loan.interest_rate with
          | none =>
              rw [repay_loan_mul_overflow s info amt loan hl hm]
              simp [isOk]
          | some interest =>
              cases ha : checkedAddU128 loan.amount_borrowed interest with
              | none =>
                  rw [repay_loan_add_overflow s info amt loan interest hl hm ha]
                  simp [isOk]
              | some total_due =>
                  rw [repay_loan_some s info amt loan interest total_due hl hm ha]
                  by_cases hlt : amt < total_due
                  · rw [if_pos hlt]
                    simp [isOk]
                  · rw [if_neg hlt]
                    simp [isOk, mapRemove]

/-- C3: every action preserves the collateral invariant: a collateral record
exists for an account only with a strictly positive stored amount (and with
`Option`-valued storage, no record means no stored amount at all, so the
record-exists-iff-amount-positive reading holds after every action). -/
theorem collateral_amount_positive_invariant (s : ContractState) (env : Env)
    (info : MessageInfo) (msg : ExecuteMsg) (h : collInv s) :
    collInv (execute s env info msg).fst := by
  cases msg with
  | DepositCollateral t amt =>
      intro a c hc
      replace hc : (deposit_collateral s info t amt).fst.collaterals a = some c := hc
      rw [deposit_spec] at hc
      by_cases hz : amt = 0
      · rw [if_pos hz] at hc
        exact h a c hc
      · rw [if_neg hz] at hc
        have hc2 : mapSave s.collaterals info.sender ⟨t, amt⟩ a = some c := hc
        by_cases ha : a = info.sender
        · rw [ha, mapSave_same] at hc2
          injection hc2 with he
          subst he
          exact Nat.pos_of_ne_zero hz
        · rw [mapSave_other _ _ _ _ ha] at hc2
          exact h a c hc2
  | WithdrawCollateral t amt =>
      intro a c hc
      replace hc : (withdraw_collateral s info t amt).fst.collaterals a = some c := hc
      cases hcol : s.collaterals info.sender with
      | none =>
          rw [withdraw_none s info t amt hcol] at hc
          exact h a c hc
      | some col =>
          rw [withdraw_spec_some s info t amt col hcol] at hc
          by_cases hbad : col.token_address ≠ t ∨ col.amount < amt
          · rw [if_pos hbad] at hc
            exact h a c hc
          · rw [if_neg hbad] at hc
            by_cases heq : col.amount = amt
            · rw [if_pos heq] at hc
              have hc2 : mapRemove s.collaterals info.sender a = some c := hc
              by_cases ha : a = info.sender
              · rw [ha, mapRemove_same] at hc2
                cases hc2
              · rw [mapRemove_other _ _ _ ha] at hc2
                exact h a c hc2
            · rw [if_neg heq] at hc
              have hc2 : mapSave s.collaterals info.sender
                  ⟨col.token_address, col.amount - amt⟩ a = some c := hc
              by_cases ha : a = info.sender
              · rw [ha, mapSave_same] at hc2
                injection hc2 with he
                subst he
                push_neg at hbad
                exact Nat.sub_pos_of_lt
                  (lt_of_le_of_ne hbad.2 (fun e => heq e.symm))
              · rw [mapSave_other _ _ _ _ ha] at hc2
                exact h a c hc2
  | Borrow amt =>
      intro a c hc
      exact h a c hc
  | RepayLoan amt =>
      intro a c hc
      replace hc : (repay_loan s info amt).fst.collaterals a = some c := hc
      rw [repay_collaterals_eq] at hc
      exact h a c hc

/-- Witness for C3 at a concrete input: the invariant holds in the fresh
state and is preserved by a deposit of 100 of token `"tokenA"`. -/
theorem collateral_amount_positive_invariant_witness :
    collInv st0 ∧
    collInv (execute st0 (envAt 0) (infoOf "alice")
      (ExecuteMsg.DepositCollateral "tokenA" 100)).fst := by
  have h0 : collInv st0 := by
    intro a c hc
    cases hc
  exact ⟨h0,
    collateral_amount_positive_invariant st0 (envAt 0) (infoOf "alice") _ h0⟩

/-- C5 counterexample: no executable action of the contract can change the
stored config at all — `ExecuteMsg` has only the four collateral/loan
variants and `execute` never dispatches to `update_interest_rate` — so
`UpdateInterestRate` is not exposed as an executable action (in particular,
no owner invocation through `execute` can replace `base_interest_rate`). -/
theorem update_rate_not_dispatched :
    ¬ ∃ (s : ContractState) (env : Env) (info : MessageInfo) (msg : ExecuteMsg),
        (execute s env info msg).fst.config ≠ s.config := by
  rintro ⟨s, env, info, msg, hne⟩
  exact hne (exec_config_eq s env info msg)

/-- C5 amended: `update_interest_rate` exists only as an internal function
that `execute` never dispatches; called directly by a non-owner it fails
with the Unauthorized error and changes nothing, and called by the owner it
replaces `base_interest_rate` while leaving every stored loan (hence every
`LoanInfo.interest_rate`) and all collateral unchanged. -/
theorem update_interest_rate_behavior (s : ContractState) (info : MessageInfo)
    (new_rate : Decimal) (config : Config) (h : s.config = some config) :
    (info.sender ≠ config.owner →
      update_interest_rate s info new_rate =
        (s, Except.error (StdError.genericErr "You have no permissions."))) ∧
    (info.sender = config.owner →
      (update_interest_rate s info new_rate).fst.config =
        some { owner := config.owner, base_interest_rate := new_rate } ∧
      (update_interest_rate s info new_rate).fst.loans = s.loans ∧
      (update_interest_rate s info new_rate).fst.collaterals = s.collaterals ∧
      isOk (update_interest_rate s info new_rate).snd = true) := by
  have hu : update_interest_rate s info new_rate =
      if info.sender ≠ config.owner then
        (s, Except.error (StdError.genericErr "You have no permissions."))
      else
        ({ s with config := some { config with base_interest_rate := new_rate } },
          Except.ok
            { messages := [],
              attributes := [("action", "update_interest_rate"),
                ("new_rate", new_rate.displayStr)] }) := by
    unfold update_interest_rate
    split
    · rename_i hn
      rw [h] at hn
      cases hn
    · rename_i c2 hsome
      rw [h] at hsome
      injection hsome with he
      subst he
      rfl
  constructor
  · intro hne
    rw [hu, if_pos hne]
  · intro heq
    rw [hu, if_neg (fun k => k heq)]
    exact ⟨rfl, rfl, rfl, rfl⟩

/-- Witness for C5's amended theorem at a concrete input: in `st0` (owner
`"owner"`, base rate 5%), the owner's direct call updates the base rate to
7% and leaves the loans map untouched. -/
theorem update_interest_rate_behavior_witness :
    (update_interest_rate st0 (infoOf "owner") (Decimal.percent 7)).fst.config =
      some { owner := "owner", base_interest_rate := Decimal.percent 7 } ∧
    (update_interest_rate st0 (infoOf "owner") (Decimal.percent 7)).fst.loans =
      st0.loans := by
  have h := update_interest_rate_behavior st0 (infoOf "owner") (Decimal.percent 7)
    { owner := "owner", base_interest_rate := Decimal.percent 5 } rfl
  exact ⟨(h.2 rfl).1, (h.2 rfl).2.1⟩

/-- C6: `WithdrawCollateral` fails with `NotFound` exactly when the caller
has no collateral record, fails with the invalid-state error exactly when
the stored token differs from the requested one or the stored amount is
below the requested amount, and succeeds in every other case. -/
theorem withdraw_failure_cases (s : ContractState) (env : Env)
    (info : MessageInfo) (token_address : String) (amount : Nat) :
    match s.collaterals info.sender with
    | none =>
        execute s env info (ExecuteMsg.WithdrawCollateral token_address amount) =
          (s, Except.error StdError.notFound)
    | some col =>
        if col.token_address ≠ token_address ∨ col.amount < amount then
          execute s env info (ExecuteMsg.WithdrawCollateral token_address amount) =
            (s, Except.error (StdError.genericErr
              "Insufficient collateral or mismatched token address"))
        else
          isOk (execute s env info
            (ExecuteMsg.WithdrawCollateral token_address amount)).snd = true := by
  cases hcol : s.collaterals info.sender with
  | none => exact withdraw_none s info token_address amount hcol
  | some col =>
      dsimp only
      by_cases hbad : col.token_address ≠ token_address ∨ col.amount < amount
      · rw [if_pos hbad]
        show withdraw_collateral s info token_address amount = _
        rw [withdraw_spec_some s info token_address amount col hcol, if_pos hbad]
      · rw [if_neg hbad]
        show isOk (withdraw_collateral s info token_address amount).snd = true
        rw [withdraw_spec_some s info token_address amount col hcol, if_neg hbad]
        by_cases heq : col.amount = amount
        · rw [if_pos heq]
          rfl
        · rw [if_neg heq]
          rfl

/-- C7: `DepositCollateral` fails with the invalid-amount error exactly when
`amount = 0`, and otherwise succeeds and replaces the caller's collateral
record with exactly `⟨token_address, amount⟩` (whatever record, for whatever
token, was stored before), leaving all other accounts unchanged. -/
theorem deposit_replace_semantics (s : ContractState) (env : Env)
    (info : MessageInfo) (token_address : String) (amount : Nat) :
    if amount = 0 then
      execute s env info (ExecuteMsg.DepositCollateral token_address amount) =
        (s, Except.error (StdError.genericErr "Amount cannot be zero"))
    else
      isOk (execute s env info
        (ExecuteMsg.DepositCollateral token_address amount)).snd = true ∧
      (execute s env info
        (ExecuteMsg.DepositCollateral token_address amount)).fst.collaterals info.sender =
        some { token_address := token_address, amount := amount } ∧
      ∀ a, a ≠ info.sender →
        (execute s env info
          (ExecuteMsg.DepositCollateral token_address amount)).fst.collaterals a =
          s.collaterals a := by
  by_cases hz : amount = 0
  · rw [if_pos hz]
    show deposit_collateral s info token_address amount = _
    rw [deposit_spec, if_pos hz]
  · rw [if_neg hz]
    have hd : deposit_collateral s info token_address amount =
        ({ s with collaterals :=
            mapSave s.collaterals info.sender ⟨token_address, amount⟩ },
          Except.ok
            { messages := [],
              attributes := [("action", "deposit_collateral"),
                ("amount", toString amount)] }) := by
      rw [deposit_spec, if_neg hz]
    refine ⟨?_, ?_, ?_⟩
    · show isOk (deposit_collateral s info token_address amount).snd = true
      rw [hd]
      rfl
    · show (deposit_collateral s info token_address amount).fst.collaterals info.sender = _
      rw [hd]
      exact mapSave_same _ _ _
    · intro a ha
      show (deposit_collateral s info token_address amount).fst.collaterals a =
        s.collaterals a
      rw [hd]
      exact mapSave_other _ _ _ _ ha

/-- C8 counterexample: with a maximal loan (reachable in one `Borrow` of
`2^128 - 1`), `RepayLoan` overflows in `total_due = amount_borrowed +
interest` and the call aborts with the arithmetic panic — fail closed, loan
record untouched — but the result is not the typed `Overflow` error the
claim announces. -/
theorem overflow_panics_not_typed_error :
    (execute stMaxLoan (envAt 1) (infoOf "alice") (ExecuteMsg.RepayLoan maxU)).snd =
      Except.error StdError.panic ∧
    (execute stMaxLoan (envAt 1) (infoOf "alice") (ExecuteMsg.RepayLoan maxU)).snd ≠
      Except.error StdError.overflow ∧
    (execute stMaxLoan (envAt 1) (infoOf "alice") (ExecuteMsg.RepayLoan maxU)).fst.loans
        "alice" = stMaxLoan.loans "alice" := by
  refine ⟨?_, ?_, ?_⟩ <;> decide

/-- C8 amended: when the interest multiplication or the `total_due` addition
of `RepayLoan` overflows 128 bits, the call fails closed — it aborts with
the unchecked-arithmetic panic and leaves the state exactly as it was,
never wrapping around — but the failure is a contract panic, not the typed
`StdError::Overflow` error. -/
theorem repay_overflow_aborts (s : ContractState) (info : MessageInfo)
    (amount : Nat) (loan : LoanInfo)
    (h : s.loans info.sender = some loan)
    (hov : 2 ^ 128 ≤ loan.amount_borrowed * loan.interest_rate.atomics / 10 ^ 18 ∨
      (loan.amount_borrowed * loan.interest_rate.atomics / 10 ^ 18 < 2 ^ 128 ∧
        2 ^ 128 ≤ loan.amount_borrowed +
          loan.amount_borrowed * loan.interest_rate.atomics / 10 ^ 18)) :
    repay_loan s info amount = (s, Except.error StdError.panic) := by
  cases hov with
  | inl h1 =>
      apply repay_loan_mul_overflow s info amount loan h
      simp only [mulDecimalFloor]
      rw [if_neg (not_lt.mpr h1)]
  | inr h2 =>
      apply repay_loan_add_overflow s info amount loan
        (loan.amount_borrowed * loan.interest_rate.atomics / 10 ^ 18) h
      · simp only [mulDecimalFloor]
        rw [if_pos h2.1]
      · simp only [checkedAddU128]
        rw [if_neg (not_lt.mpr h2.2)]

/-- Witness for C8's amended theorem at a concrete input: the maximal loan
state; its `total_due` addition overflows and `repay_loan` returns the
panic with the state unchanged. -/
theorem repay_overflow_aborts_witness :
    repay_loan stMaxLoan (infoOf "alice") 0 =
      (stMaxLoan, Except.error StdError.panic) :=
  repay_overflow_aborts stMaxLoan (infoOf "alice") 0
    { amount_borrowed := maxU, interest_rate := Decimal.percent 5,
      loan_start_time := 0 }
    (by decide) (Or.inr ⟨by decide, by decide⟩)

/-- C9: every failing action leaves the store exactly as it was: whenever
`execute` returns an error (including the modelled arithmetic panic), the
returned state is the input state — no partial write survives, because every
handler performs its checks before its writes. -/
theorem errors_leave_state_unchanged (s : ContractState) (env : Env)
    (info : MessageInfo) (msg : ExecuteMsg)
    (h : isOk (execute s env info msg).snd = false) :
    (execute s env info msg).fst = s := by
  cases msg with
  | DepositCollateral t amt =>
      show (deposit_collateral s info t amt).fst = s
      replace h : isOk (deposit_collateral s info t amt).snd = false := h
      rw [deposit_spec] at h ⊢
      by_cases hz : amt = 0
      · rw [if_pos hz]
      · rw [if_neg hz] at h
        cases h
  | WithdrawCollateral t amt =>
      show (withdraw_collateral s info t amt).fst = s
      replace h : isOk (withdraw_collateral s info t amt).snd = false := h
      cases hcol : s.collaterals info.sender with
      | none => rw [withdraw_none s info t amt hcol]
      | some col =>
          rw [withdraw_spec_some s info t amt col hcol] at h ⊢
          by_cases hbad : col.token_address ≠ t ∨ col.amount < amt
          · rw [if_pos hbad]
          · rw [if_neg hbad] at h
            by_cases heq : col.amount = amt
            · rw [if_pos heq] at h
              cases h
            · rw [if_neg heq] at h
              cases h
  | Borrow amt =>
      exact absurd (show (true : Bool) = false from h) (by decide)
  | RepayLoan amt =>
      show (repay_loan s info amt).fst = s
      replace h : isOk (repay_loan s info amt).snd = false := h
      cases hl : s.loans info.sender with
      | none => rw [repay_loan_none s info amt hl]
      | some loan =>
          cases hm : mulDecimalFloor loan.amount_borrowed loan.interest_rate with
          | none => rw [repay_loan_mul_overflow s info amt loan hl hm]
          | some interest =>
              cases ha : checkedAddU128 loan.amount_borrowed interest with
              | none => rw [repay_loan_add_overflow s info amt loan interest hl hm ha]
              | some total_due =>
                  rw [repay_loan_some s info amt loan interest total_due hl hm ha] at h ⊢
                  by_cases hlt : amt < total_due
                  · rw [if_pos hlt]
                  · rw [if_neg hlt] at h
                    cases h

/-- Witness for C9 at a concrete input: a zero-amount deposit fails and the
state it returns is exactly the input state. -/
theorem errors_leave_state_unchanged_witness :
    isOk (execute st0 (envAt 0) (infoOf "alice")
      (ExecuteMsg.DepositCollateral "tokenA" 0)).snd = false ∧
    (execute st0 (envAt 0) (infoOf "alice")
      (ExecuteMsg.DepositCollateral "tokenA" 0)).fst = st0 :=
  ⟨by decide,
    errors_leave_state_unchanged st0 (envAt 0) (infoOf "alice") _ (by decide)⟩
